import Mathlib

/-!
Shallow embedding of `src/about_tool/cmd.py` (AboutCode toolkit command layer).

The command layer is pure CLI plumbing: argument validation, delegation to
collaborators (`collect_inventory`, `generate`, `generate_and_save`,
`extract_zip`, `verify_license_files`, `copy_files`) and error reporting via
`log_errors`.  We embed each subcommand as a pure function from its arguments
and an environment (the observable answers of the filesystem and of the
collaborator modules, which are outside this excerpt) to a trace of events in
source order: echoed lines, collaborator calls, output writes, and the final
`log_errors` call.  `log_errors` itself is embedded as a pure function from
its arguments and the prior state of `error.log` to the printed lines and the
new state of `error.log`.
-/

namespace AboutTool

/-- Severity constants as shown in `cmd.py`'s `-v` help text
(50 CRITICAL, 40 ERROR, 30 WARNING, 20 INFO, 10 DEBUG) and the spec's scale;
imported in the source from `about_tool/__init__.py`. -/
def CRITICAL : Nat := 50

def ERROR : Nat := 40

def WARNING : Nat := 30

def INFO : Nat := 20

def DEBUG : Nat := 10

def NOTSET : Nat := 0

/-- The `Error` record: a severity level and a message. -/
structure Error where
  severity : Nat
  message : String
deriving DecidableEq, Repr

/-- Modelled from the spec: `severities` is imported from
`about_tool/__init__.py`, which is not part of the excerpt; it maps each
severity integer of the ordered scale to its level name, per section 3 of the
spec and the `-v` help text in `cmd.py`. -/
def severities : Nat → String
  | 50 => "CRITICAL"
  | 40 => "ERROR"
  | 30 => "WARNING"
  | 20 => "INFO"
  | 10 => "DEBUG"
  | 0 => "NOTSET"
  | _ => "UNKNOWN"

/-- Modelled from the spec: `__version__` is imported from
`about_tool/__init__.py`, which is not part of the excerpt.  Its value only
appears inside echoed banner strings and affects no claim. -/
def version_str : String := "x.y.z"

/-- Python `s.endswith(suffix)`: `suffix` is a suffix of `s`.  Stated over
the character list so it evaluates inside the kernel. -/
def pyEndsWith (s suffix : String) : Bool :=
  suffix.data.isSuffixOf s.data

/-- Python `s.startswith(pre)`: `pre` is a prefix of `s`. -/
def pyStartsWith (s pre : String) : Bool :=
  pre.data.isPrefixOf s.data

/-- Python `s.lower()` (ASCII case folding, enough for the `.zip` check). -/
def pyLower (s : String) : String :=
  ⟨s.data.map Char.toLower⟩

/-- `msg_format % locals()` in `log_errors`: `'%(sever)s: %(message)s'` with
`sever = severities[severity]`. -/
def format_msg (e : Error) : String :=
  severities e.severity ++ ": " ++ e.message

/-- The supported output formats of `inventory` (`formats` in `cmd.py`). -/
def formats : List String := ["csv", "json"]

/-- The process-wide mutable flags set by the `cli` group
(`no_stdout`, `verbosity_num` globals in `cmd.py`). -/
structure GlobalState where
  no_stdout : Bool
  verbosity_num : Nat
deriving DecidableEq, Repr

/-- The module-level initial values of the globals
(`no_stdout = False`, `verbosity_num = 30`). -/
def startState : GlobalState :=
  { no_stdout := false, verbosity_num := 30 }

/-- The `cli` group callback: stores `--quiet` into `no_stdout` and
`--verbose` into `verbosity_num` before any subcommand runs. -/
def cli (verbose : Nat) (quiet : Bool) : GlobalState :=
  { no_stdout := quiet, verbosity_num := verbose }

/-- Result of one `log_errors` call: lines printed to stdout, whether a
pre-existing `error.log` was removed, and the final content of `error.log`
at `base_dir` (`none` when absent). -/
structure LogResult where
  printed : List String
  removedOld : Bool
  logFile : Option (List String)
deriving DecidableEq, Repr

/-- Embedding of `log_errors(errors, base_dir=False, level=NOTSET)`.
`no_stdout` is the process-wide flag read inside the loop; `prior` is the
content of `error.log` at `base_dir` before the call (`none` when no such
file exists).  Python truthiness of `base_dir`: the call sites pass path
strings, so truthy means nonempty. -/
def log_errors (ns : Bool) (errors : List Error) (base_dir : String)
    (prior : Option (List String)) (level : Nat) : LogResult :=
  let kept := errors.filter fun e => decide (level ≤ e.severity)
  let msgs := kept.map format_msg
  let printed := if ns then [] else msgs
  if base_dir.isEmpty then
    { printed := printed, removedOld := false, logFile := prior }
  else
    { printed := printed, removedOld := prior.isSome, logFile := some msgs }

/-- Opaque parsed ABOUT metadata record; this layer never inspects it. -/
structure About where
  tag : Nat
deriving DecidableEq, Repr

/-- What `inventory` writes: `model.to_csv(abouts, output)` or
`model.to_json(abouts, output)`. -/
inductive Written
  | csv (abouts : List About) (output : String)
  | json (abouts : List About) (output : String)
deriving DecidableEq, Repr

/-- Arguments of a `log_errors` call made by a subcommand. -/
structure LogArgs where
  errors : List Error
  base_dir : String
  level : Nat
deriving DecidableEq, Repr

/-- One observable event of a subcommand run, in source order. -/
inductive Event
  | echo (line : String)
  | collectCall (arg : String)
  | generateCall (mapping : Bool) (extract_license : Option (String × String))
      (location output : String)
  | genSaveCall (output : String) (mapping : Bool)
      (template inventory_location : Option String)
  | copyCall (lic_loc_dict : List (String × String)) (output : String)
  | writeOut (w : Written)
  | logErrors (la : LogArgs)
deriving DecidableEq, Repr

/-- Environment: observable answers of the filesystem and of the collaborator
modules (`model`, `gen`, `attrib`, `util`), which are outside this excerpt. -/
structure Env where
  outputExists : Bool
  outputDirExists : Bool
  dirname : String → String
  extract_zip : String → String
  collect_inventory : String → List Error × List About
  generate : Bool → Option (String × String) → String → String →
      List Error × List About
  verify_license_files : List About → String →
      List (String × String) × List Error
  generate_and_save : List About → String → Bool → Option String →
      Option String → List Error

def echoedOf (t : List Event) : List String :=
  t.filterMap fun
    | Event.echo s => some s
    | _ => none

def collectCallsOf (t : List Event) : List String :=
  t.filterMap fun
    | Event.collectCall a => some a
    | _ => none

def writesOf (t : List Event) : List Written :=
  t.filterMap fun
    | Event.writeOut w => some w
    | _ => none

def logCallsOf (t : List Event) : List LogArgs :=
  t.filterMap fun
    | Event.logErrors la => some la
    | _ => none

def generateCallsOf (t : List Event) :
    List (Bool × Option (String × String) × String × String) :=
  t.filterMap fun
    | Event.generateCall m el l o => some (m, el, l, o)
    | _ => none

def copyCallsOf (t : List Event) : List (List (String × String) × String) :=
  t.filterMap fun
    | Event.copyCall d o => some (d, o)
    | _ => none

def genSaveCallsOf (t : List Event) :
    List (String × Bool × Option String × Option String) :=
  t.filterMap fun
    | Event.genSaveCall o m tl il => some (o, m, tl, il)
    | _ => none

def hasErrorEcho (t : List Event) : Prop :=
  ∃ m ∈ echoedOf t, pyStartsWith m "ERROR" = true

instance (t : List Event) : Decidable (hasErrorEcho t) := by
  unfold hasErrorEcho; infer_instance

/-- Embedding of the `inventory` subcommand body.  `st` holds the globals
read by the body (`verbosity_num`); the four validation checks, the `.zip`
extraction, the `collect_inventory` call, the empty-`abouts` replacement
and the final `log_errors` call are translated line by line. -/
def inventory (st : GlobalState) (env : Env) (overwrite : Bool)
    (format location output : String) : List Event :=
  let banner := Event.echo ("Running about-code-tool version " ++ version_str)
  if env.outputExists && !overwrite then
    [banner,
     Event.echo "ERROR: <output> file already exists.",
     Event.echo "Select a different file name or use the --overwrite option after the `inventory`.",
     Event.echo ""]
  else if !env.outputDirExists then
    [banner,
     Event.echo "ERROR: Path to the <output> does not exists. Please check and correct the <output>.",
     Event.echo ""]
  else if !(formats.contains format) then
    [banner,
     Event.echo ("ERROR: Output format: " ++ format ++ " is not supported."),
     Event.echo ""]
  else if !(format == "json") && !(pyEndsWith output ".csv") then
    [banner,
     Event.echo "ERROR: <output> must be a CSV file ending with \".csv\".",
     Event.echo ""]
  else
    let collecting := Event.echo ("Collecting the inventory from location: "
      ++ location ++ " and writing output to: " ++ output)
    let loc := if pyEndsWith (pyLower location) ".zip" then env.extract_zip location
               else location
    let errors := (env.collect_inventory loc).1
    let abouts := (env.collect_inventory loc).2
    let finalLog (errs : List Error) : Event :=
      Event.logErrors ⟨errs, env.dirname output, st.verbosity_num⟩
    if abouts.isEmpty then
      [banner, collecting, Event.collectCall loc,
       finalLog [⟨ERROR, "No ABOUT files is found. Generation halted."⟩]]
    else
      let w := if format == "json" then Written.json abouts output
               else Written.csv abouts output
      [banner, collecting, Event.collectCall loc, Event.writeOut w,
       finalLog errors]

/-- The `gen` summary line
`'Generated %(lea)d ABOUT files with %(lee)d errors and/or warning'`. -/
def summaryLine (lea lee : Nat) : String :=
  "Generated " ++ toString lea ++ " ABOUT files with " ++ toString lee
    ++ " errors and/or warning"

/-- Embedding of the `gen` subcommand body: the extension check, the
`gen.generate` call, the optional `--license_text_location` branch
(`verify_license_files`, `copy_files`, error-list merge), the summary line
counting errors of severity strictly above 20, and the final
`log_errors(errors, output)` call with the default level `NOTSET`. -/
def gen (env : Env) (mapping : Bool)
    (license_text_location : Option String)
    (extract_license : Option (String × String))
    (location output : String) : List Event :=
  let banner := Event.echo ("Running about-code-tool version " ++ version_str)
  if !(pyEndsWith location ".csv") && !(pyEndsWith location ".json") then
    [banner,
     Event.echo "ERROR: Input file. Only .csv and .json files are supported.",
     Event.echo ""]
  else
    let errors0 := (env.generate mapping extract_license location output).1
    let abouts := (env.generate mapping extract_license location output).2
    let licPart : List Event × List Error :=
      match license_text_location with
      | none => ([], errors0)
      | some ltl =>
        let lic_loc_dict := (env.verify_license_files abouts ltl).1
        let lic_file_err := (env.verify_license_files abouts ltl).2
        let copies := if lic_loc_dict.isEmpty then []
                      else [Event.copyCall lic_loc_dict output]
        let errors1 := if lic_file_err.isEmpty then errors0
                       else errors0 ++ lic_file_err
        (copies, errors1)
    let errors := licPart.2
    let lea := abouts.length
    let lee := (errors.filter fun e => decide (20 < e.severity)).length
    [banner, Event.echo "Generating ABOUT files...",
     Event.generateCall mapping extract_license location output]
    ++ licPart.1
    ++ [Event.echo (summaryLine lea lee),
        Event.logErrors ⟨errors, output, NOTSET⟩]

/-- Embedding of the `attrib` subcommand body: no validation, `.zip`
extraction, `collect_inventory`, `generate_and_save`, then
`log_errors(no_match_errors, os.path.dirname(output))` with the default
level `NOTSET`.  The globals are not read by the body. -/
def attrib (env : Env) (location output : String)
    (template : Option String) (mapping : Bool)
    (inventory_location : Option String) : List Event :=
  let loc := if pyEndsWith (pyLower location) ".zip" then env.extract_zip location
             else location
  let abouts := (env.collect_inventory loc).2
  let no_match_errors :=
    env.generate_and_save abouts output mapping template inventory_location
  [Event.echo ("Running about-code-tool version " ++ version_str),
   Event.echo "Generating attribution...",
   Event.collectCall loc,
   Event.genSaveCall output mapping template inventory_location,
   Event.logErrors ⟨no_match_errors, env.dirname output, NOTSET⟩,
   Event.echo "Finished."]

/-- The conjunction of `inventory`'s four validation checks. -/
def inventoryValid (env : Env) (overwrite : Bool)
    (format output : String) : Bool :=
  !(env.outputExists && !overwrite) && env.outputDirExists
    && formats.contains format
    && (format == "json" || pyEndsWith output ".csv")

/-- `gen`'s single validation check on the input extension. -/
def genValid (location : String) : Bool :=
  pyEndsWith location ".csv" || pyEndsWith location ".json"

/-- The location actually handed to `collect_inventory` by `inventory` (and
`attrib`): the `extract_zip` result when the location ends with `.zip`
case-insensitively, the location itself otherwise. -/
def invLoc (env : Env) (location : String) : String :=
  if pyEndsWith (pyLower location) ".zip" then env.extract_zip location
  else location

/-- Derived: the error list `inventory` hands to `log_errors` — the
collaborator's errors, except that an empty `abouts` list replaces them with
the single halt error. -/
def invFinalErrors (env : Env) (location : String) : List Error :=
  if (env.collect_inventory (invLoc env location)).2.isEmpty then
    [⟨ERROR, "No ABOUT files is found. Generation halted."⟩]
  else (env.collect_inventory (invLoc env location)).1

/-- Derived: the error list `gen` hands to `log_errors` and counts for the
summary — `generate`'s errors, extended by `verify_license_files`'s file
errors when `--license_text_location` was given and produced any. -/
def genFinalErrors (env : Env) (mapping : Bool) (ltl : Option String)
    (el : Option (String × String)) (location output : String) : List Error :=
  match ltl with
  | none => (env.generate mapping el location output).1
  | some l =>
    if (env.verify_license_files
        (env.generate mapping el location output).2 l).2.isEmpty then
      (env.generate mapping el location output).1
    else
      (env.generate mapping el location output).1
        ++ (env.verify_license_files
            (env.generate mapping el location output).2 l).2

/-- The five severity levels of the spec's scale. -/
def fiveLevels : List Nat := [NOTSET, INFO, WARNING, ERROR, CRITICAL]

/-- The levels counted by the `gen` summary (strictly above `INFO`). -/
def highLevels : List Nat := [WARNING, ERROR, CRITICAL]

/-- A concrete environment used to instantiate theorems with hypotheses. -/
def demoEnv : Env where
  outputExists := false
  outputDirExists := true
  dirname := fun _ => "/out"
  extract_zip := fun s => s ++ ".extracted"
  collect_inventory := fun _ => ([⟨40, "bad"⟩], [⟨1⟩])
  generate := fun _ _ _ _ => ([⟨20, "info"⟩, ⟨40, "bad"⟩], [⟨1⟩, ⟨2⟩])
  verify_license_files := fun _ _ => ([("k", "v")], [⟨30, "lic"⟩])
  generate_and_save := fun _ _ _ _ _ => [⟨30, "nomatch"⟩]

/-- Like `demoEnv` but with a `collect_inventory` that finds no ABOUT
files. -/
def demoEnvEmpty : Env :=
  { demoEnv with collect_inventory := fun _ => ([⟨40, "bad"⟩], []) }

/-- A Python-style prefix survives appending on the right. -/
theorem pyStartsWith_append (s t p : String) (h : pyStartsWith s p = true) :
    pyStartsWith (s ++ t) p = true := by
  unfold pyStartsWith at *
  rw [String.data_append, List.isPrefixOf_iff_prefix] at *
  exact h.trans (List.prefix_append _ _)

/-- When any of `inventory`'s four validation checks fails, the run echoes an
error line and stops: no `collect_inventory` call, no output write, no
`log_errors` call. -/
theorem inventory_invalid_aborts (st : GlobalState) (env : Env)
    (overwrite : Bool) (format location output : String)
    (hv : inventoryValid env overwrite format output = false) :
    collectCallsOf (inventory st env overwrite format location output) = [] ∧
    writesOf (inventory st env overwrite format location output) = [] ∧
    logCallsOf (inventory st env overwrite format location output) = [] ∧
    hasErrorEcho (inventory st env overwrite format location output) := by
  by_cases h1 : (env.outputExists && !overwrite) = true
  · refine ⟨?_, ?_, ?_,
      ⟨"ERROR: <output> file already exists.", ?_, by decide⟩⟩ <;>
      simp [inventory, h1, collectCallsOf, writesOf, logCallsOf, echoedOf]
  · by_cases h2 : env.outputDirExists = true
    · by_cases h3 : format ∈ formats
      · have h3' : formats.contains format = true := by simpa using h3
        by_cases h4 : (format == "json") = true
        · exact absurd hv (by simp [inventoryValid, h1, h2, h3, h3', h4])
        · by_cases h5 : pyEndsWith output ".csv" = true
          · exact absurd hv (by simp [inventoryValid, h1, h2, h3, h3', h5])
          · refine ⟨?_, ?_, ?_,
              ⟨"ERROR: <output> must be a CSV file ending with \".csv\".",
                ?_, by decide⟩⟩ <;>
              simp [inventory, h1, h2, h3, h3', h4, h5, collectCallsOf, writesOf,
                logCallsOf, echoedOf]
      · have h3' : formats.contains format = false := by simpa using h3
        refine ⟨?_, ?_, ?_,
          ⟨"ERROR: Output format: " ++ format ++ " is not supported.", ?_,
            pyStartsWith_append _ _ _ (pyStartsWith_append
              "ERROR: Output format: " format "ERROR" (by decide))⟩⟩ <;>
          simp [inventory, h1, h2, h3, h3', collectCallsOf, writesOf,
            logCallsOf, echoedOf]
    · refine ⟨?_, ?_, ?_,
        ⟨"ERROR: Path to the <output> does not exists. Please check and correct the <output>.",
          ?_, by decide⟩⟩ <;>
        simp [inventory, h1, h2, collectCallsOf, writesOf, logCallsOf,
          echoedOf]

/-- When all of `inventory`'s validation checks pass, the run calls
`collect_inventory` exactly once, on `invLoc`, and ends with exactly one
`log_errors` call at level `verbosity_num`. -/
theorem inventory_valid_delegates (st : GlobalState) (env : Env)
    (overwrite : Bool) (format location output : String)
    (hv : inventoryValid env overwrite format output = true) :
    collectCallsOf (inventory st env overwrite format location output)
      = [invLoc env location] ∧
    logCallsOf (inventory st env overwrite format location output)
      = [⟨invFinalErrors env location, env.dirname output,
          st.verbosity_num⟩] := by
  simp only [inventoryValid, Bool.and_eq_true] at hv
  obtain ⟨⟨⟨ha, hb⟩, hc⟩, hd⟩ := hv
  have hc' : format ∈ formats := by simpa using hc
  cases hx : env.outputExists <;> cases hw : overwrite <;>
    cases hj : format == "json" <;> cases hcsv : pyEndsWith output ".csv" <;>
    by_cases hz : pyEndsWith (pyLower location) ".zip" = true <;>
    by_cases he : (env.collect_inventory (invLoc env location)).2.isEmpty = true <;>
    constructor <;>
    simp_all [inventory, invLoc, invFinalErrors, collectCallsOf, logCallsOf]

/-- When `gen`'s extension check fails, the run echoes an error line and
stops: no `generate` call, no `copy_files` call, no `log_errors` call. -/
theorem gen_invalid_aborts (env : Env) (mapping : Bool)
    (ltl : Option String) (el : Option (String × String))
    (location output : String)
    (hv : genValid location = false) :
    generateCallsOf (gen env mapping ltl el location output) = [] ∧
    copyCallsOf (gen env mapping ltl el location output) = [] ∧
    logCallsOf (gen env mapping ltl el location output) = [] ∧
    hasErrorEcho (gen env mapping ltl el location output) := by
  simp only [genValid, Bool.or_eq_false_iff] at hv
  refine ⟨?_, ?_, ?_,
    ⟨"ERROR: Input file. Only .csv and .json files are supported.", ?_,
      by decide⟩⟩ <;>
    simp [gen, hv.1, hv.2, generateCallsOf, copyCallsOf, logCallsOf, echoedOf]

/-- When `gen`'s extension check passes, the run calls `generate` exactly
once with the given arguments, echoes the summary line counting the final
errors of severity strictly above 20, and ends with exactly one `log_errors`
call on those final errors, at `output` and level `NOTSET`. -/
theorem gen_valid_delegates (env : Env) (mapping : Bool)
    (ltl : Option String) (el : Option (String × String))
    (location output : String)
    (hv : genValid location = true) :
    generateCallsOf (gen env mapping ltl el location output)
      = [(mapping, el, location, output)] ∧
    logCallsOf (gen env mapping ltl el location output)
      = [⟨genFinalErrors env mapping ltl el location output, output,
          NOTSET⟩] ∧
    Event.echo (summaryLine (env.generate mapping el location output).2.length
        (((genFinalErrors env mapping ltl el location output).filter
          fun e => decide (20 < e.severity)).length))
      ∈ gen env mapping ltl el location output := by
  have hv' : pyEndsWith location ".csv" = true
      ∨ pyEndsWith location ".json" = true := by
    simpa [genValid] using hv
  cases ltl with
  | none =>
    rcases hv' with h | h <;>
      refine ⟨?_, ?_, ?_⟩ <;>
      simp [gen, h, genFinalErrors, generateCallsOf, logCallsOf]
  | some l =>
    rcases hv' with h | h <;>
      by_cases he2 : ((env.verify_license_files
        (env.generate mapping el location output).2 l).2.isEmpty = true) <;>
      by_cases hd2 : ((env.verify_license_files
        (env.generate mapping el location output).2 l).1.isEmpty = true) <;>
      refine ⟨?_, ?_, ?_⟩ <;>
      simp [gen, h, he2, hd2, genFinalErrors, generateCallsOf, logCallsOf]

/-- Filtering by "severity strictly above 20" coincides with filtering by
membership in `highLevels` as long as every severity lies on the five-level
scale. -/
theorem filter_gt20_eq_highLevels (errs : List Error)
    (h : ∀ e ∈ errs, e.severity ∈ fiveLevels) :
    errs.filter (fun e => decide (20 < e.severity))
      = errs.filter (fun e => decide (e.severity ∈ highLevels)) := by
  apply List.filter_congr
  intro e he
  have hm := h e he
  simp only [fiveLevels, NOTSET, INFO, WARNING, ERROR, CRITICAL,
    List.mem_cons, List.not_mem_nil, or_false] at hm
  rcases hm with h0 | h0 | h0 | h0 | h0 <;> rw [h0] <;> decide

/-- C1 counterexample: a concrete `gen` invocation with configured verbosity
30 (the default `-v`), whose collaborator returns an INFO (severity 20)
error.  `gen` calls `log_errors` without a `level` argument, so the level is
`NOTSET` (0), not `verbosity_num`, and the severity-20 error is both printed
to stdout and written to `error.log` even though 20 < 30 — contradicting the
claim that errors below the configured verbosity are neither printed nor
logged. -/
theorem C1_claim_counterexample :
    logCallsOf (gen demoEnv false none none "/in.csv" "/outdir")
      = [⟨[⟨20, "info"⟩, ⟨40, "bad"⟩], "/outdir", NOTSET⟩] ∧
    (cli 30 false).verbosity_num = 30 ∧
    (20 : Nat) < 30 ∧
    (log_errors (cli 30 false).no_stdout [⟨20, "info"⟩, ⟨40, "bad"⟩]
        "/outdir" none NOTSET).printed = ["INFO: info", "ERROR: bad"] ∧
    (log_errors (cli 30 false).no_stdout [⟨20, "info"⟩, ⟨40, "bad"⟩]
        "/outdir" none NOTSET).logFile = some ["INFO: info", "ERROR: bad"] := by
  decide

/-- C1 amended: `log_errors` prints (unless quiet) and logs (when `base_dir`
is truthy) exactly the errors whose severity is greater than or equal to its
`level` parameter; `inventory` passes `verbosity_num` as the level, but `gen`
and `attrib` omit the argument, so their level is `NOTSET` (0) and every
collaborator error is reported regardless of the configured verbosity. -/
theorem C1_amended_level_filtering :
    (∀ (ns : Bool) (errors : List Error) (bd : String)
        (prior : Option (List String)) (level : Nat),
      bd.isEmpty = false → ns = false →
      (log_errors ns errors bd prior level).printed
        = (errors.filter fun e => decide (level ≤ e.severity)).map format_msg ∧
      (log_errors ns errors bd prior level).logFile
        = some ((errors.filter fun e =>
            decide (level ≤ e.severity)).map format_msg)) ∧
    (∀ (st : GlobalState) (env : Env) (overwrite : Bool)
        (format location output : String) (la : LogArgs),
      la ∈ logCallsOf (inventory st env overwrite format location output) →
      la.level = st.verbosity_num) ∧
    (∀ (env : Env) (mapping : Bool) (ltl : Option String)
        (el : Option (String × String)) (location output : String)
        (la : LogArgs),
      la ∈ logCallsOf (gen env mapping ltl el location output) →
      la.level = NOTSET) ∧
    (∀ (env : Env) (location output : String) (template : Option String)
        (mapping : Bool) (invloc : Option String) (la : LogArgs),
      la ∈ logCallsOf (attrib env location output template mapping invloc) →
      la.level = NOTSET) := by
  refine ⟨?_, ?_, ?_, ?_⟩
  · intro ns errors bd prior level h hns
    subst hns
    simp [log_errors, h]
  · intro st env overwrite format location output la h
    unfold inventory at h
    simp only [logCallsOf, apply_ite (List.filterMap _)] at h
    repeat' split at h
    all_goals simp at h
    all_goals simp [h]
  · intro env mapping ltl el location output la h
    by_cases hval : (!pyEndsWith location ".csv" && !pyEndsWith location ".json") = true
    · simp [gen, hval, logCallsOf] at h
    · cases ltl with
      | none =>
        simp [gen, hval, logCallsOf] at h
        simp [h]
      | some l =>
        by_cases hd : ((env.verify_license_files
            (env.generate mapping el location output).2 l).1.isEmpty = true) <;>
          by_cases he2 : ((env.verify_license_files
            (env.generate mapping el location output).2 l).2.isEmpty = true) <;>
          simp [gen, hval, hd, he2, logCallsOf] at h <;>
          simp [h]
  · intro env location output template mapping invloc la h
    simp [attrib, logCallsOf] at h
    rw [h]

/-- Witness for C1 amended, discharging the hypotheses of each conjunct at
concrete inputs. -/
theorem C1_amended_level_filtering_witness :
    (("/out" : String).isEmpty = false ∧ (false : Bool) = false ∧
      (log_errors false [⟨20, "info"⟩] "/out" none 30).printed
        = ([⟨20, "info"⟩].filter fun e =>
            decide (30 ≤ (e : Error).severity)).map format_msg) ∧
    ((⟨[⟨40, "bad"⟩], "/out", 30⟩ : LogArgs)
        ∈ logCallsOf (inventory startState demoEnv false "csv" "/in" "/o.csv") ∧
      (⟨[⟨40, "bad"⟩], "/out", 30⟩ : LogArgs).level
        = startState.verbosity_num) ∧
    ((⟨[⟨20, "info"⟩, ⟨40, "bad"⟩], "/outdir", 0⟩ : LogArgs)
        ∈ logCallsOf (gen demoEnv false none none "/in.csv" "/outdir") ∧
      (⟨[⟨20, "info"⟩, ⟨40, "bad"⟩], "/outdir", 0⟩ : LogArgs).level = NOTSET) ∧
    ((⟨[⟨30, "nomatch"⟩], "/out", 0⟩ : LogArgs)
        ∈ logCallsOf (attrib demoEnv "/in" "/o.html" none false none) ∧
      (⟨[⟨30, "nomatch"⟩], "/out", 0⟩ : LogArgs).level = NOTSET) := by
  refine ⟨⟨rfl, rfl, ?_⟩, ⟨?_, ?_⟩, ⟨?_, ?_⟩, ⟨?_, ?_⟩⟩
  · exact (C1_amended_level_filtering.1 false [⟨20, "info"⟩] "/out" none 30
      rfl rfl).1
  · decide
  · exact C1_amended_level_filtering.2.1 startState demoEnv false "csv" "/in"
      "/o.csv" ⟨[⟨40, "bad"⟩], "/out", 30⟩ (by decide)
  · decide
  · exact C1_amended_level_filtering.2.2.1 demoEnv false none none "/in.csv"
      "/outdir" ⟨[⟨20, "info"⟩, ⟨40, "bad"⟩], "/outdir", 0⟩ (by decide)
  · decide
  · exact C1_amended_level_filtering.2.2.2 demoEnv "/in" "/o.html" none false
      none ⟨[⟨30, "nomatch"⟩], "/out", 0⟩ (by decide)

/-- C2: when the output path names an existing file and `--overwrite` is not
given, `inventory` echoes an error and returns without calling
`collect_inventory`, without writing the output file, and without calling
`log_errors` (so no `error.log` is written). -/
theorem C2_inventory_refuses_overwrite (st : GlobalState) (env : Env)
    (format location output : String)
    (h : env.outputExists = true) :
    collectCallsOf (inventory st env false format location output) = [] ∧
    writesOf (inventory st env false format location output) = [] ∧
    logCallsOf (inventory st env false format location output) = [] ∧
    "ERROR: <output> file already exists."
      ∈ echoedOf (inventory st env false format location output) := by
  simp [inventory, h, collectCallsOf, writesOf, logCallsOf, echoedOf]

/-- Witness for C2 at a concrete environment with an existing output file. -/
theorem C2_inventory_refuses_overwrite_witness :
    ({ demoEnv with outputExists := true } : Env).outputExists = true ∧
    (collectCallsOf (inventory startState { demoEnv with outputExists := true }
        false "csv" "/in" "/out/o.csv") = [] ∧
      writesOf (inventory startState { demoEnv with outputExists := true }
        false "csv" "/in" "/out/o.csv") = [] ∧
      logCallsOf (inventory startState { demoEnv with outputExists := true }
        false "csv" "/in" "/out/o.csv") = [] ∧
      "ERROR: <output> file already exists."
        ∈ echoedOf (inventory startState { demoEnv with outputExists := true }
            false "csv" "/in" "/out/o.csv")) :=
  ⟨rfl, C2_inventory_refuses_overwrite startState _ "csv" "/in" "/out/o.csv" rfl⟩

/-- C3: with a truthy (nonempty) `base_dir`, `log_errors` ends with an
`error.log` whose content is exactly the newly logged messages; a
pre-existing `error.log` is removed first, and the final content does not
depend on the prior content, so the prior log never survives. -/
theorem C3_log_errors_fresh_logfile (ns : Bool) (errors : List Error)
    (bd : String) (prior : Option (List String)) (level : Nat)
    (h : bd.isEmpty = false) :
    (log_errors ns errors bd prior level).logFile
      = some ((errors.filter fun e => decide (level ≤ e.severity)).map format_msg) ∧
    (log_errors ns errors bd prior level).removedOld = prior.isSome ∧
    ∀ prior2, (log_errors ns errors bd prior level).logFile
      = (log_errors ns errors bd prior2 level).logFile := by
  refine ⟨?_, ?_, ?_⟩ <;> simp [log_errors, h]

/-- Witness for C3 at a concrete call with a pre-existing log file. -/
theorem C3_log_errors_fresh_logfile_witness :
    ("/out" : String).isEmpty = false ∧
    ((log_errors false [⟨40, "bad"⟩] "/out" (some ["old line"]) 30).logFile
        = some (([⟨40, "bad"⟩].filter fun e =>
            decide (30 ≤ (e : Error).severity)).map format_msg) ∧
      (log_errors false [⟨40, "bad"⟩] "/out" (some ["old line"]) 30).removedOld
        = (some ["old line"]).isSome ∧
      ∀ prior2, (log_errors false [⟨40, "bad"⟩] "/out" (some ["old line"]) 30).logFile
        = (log_errors false [⟨40, "bad"⟩] "/out" prior2 30).logFile) :=
  ⟨rfl, C3_log_errors_fresh_logfile false [⟨40, "bad"⟩] "/out" (some ["old line"]) 30 rfl⟩

/-- C8: the `cli` group callback stores `--quiet` into `no_stdout` and
`--verbose` into `verbosity_num` (the single write to the process-wide
globals, performed before any subcommand body runs); and whenever
`no_stdout` is true, `log_errors` prints nothing to stdout, for every error
list, base directory, prior log and threshold. -/
theorem C8_cli_globals_and_quiet (verbose : Nat) (quiet : Bool)
    (errors : List Error) (bd : String) (prior : Option (List String))
    (level : Nat) :
    (cli verbose quiet).no_stdout = quiet ∧
    (cli verbose quiet).verbosity_num = verbose ∧
    (log_errors true errors bd prior level).printed = [] := by
  refine ⟨rfl, rfl, ?_⟩
  unfold log_errors
  split <;> split <;> simp_all

/-- Full trace of a valid `inventory` run whose collaborator returns no
ABOUT files: the halt error replaces the collaborator errors and nothing is
written. -/
theorem inventory_empty_trace (st : GlobalState) (env : Env)
    (overwrite : Bool) (format location output : String)
    (hv : inventoryValid env overwrite format output = true)
    (he : (env.collect_inventory (invLoc env location)).2.isEmpty = true) :
    inventory st env overwrite format location output
      = [Event.echo ("Running about-code-tool version " ++ version_str),
         Event.echo ("Collecting the inventory from location: " ++ location
           ++ " and writing output to: " ++ output),
         Event.collectCall (invLoc env location),
         Event.logErrors
           ⟨[⟨ERROR, "No ABOUT files is found. Generation halted."⟩],
             env.dirname output, st.verbosity_num⟩] := by
  simp only [inventoryValid, Bool.and_eq_true] at hv
  obtain ⟨⟨⟨ha, hb⟩, hc⟩, hd⟩ := hv
  have hc' : format ∈ formats := by simpa using hc
  cases hx : env.outputExists <;> cases hw : overwrite <;>
    cases hj : format == "json" <;> cases hcsv : pyEndsWith output ".csv" <;>
    by_cases hz : pyEndsWith (pyLower location) ".zip" = true <;>
    simp_all [inventory, invLoc]

/-- Full trace of a valid `inventory` run whose collaborator returns a
non-empty `abouts` list: the output is written in the selected format before
the collaborator errors are handed to `log_errors`. -/
theorem inventory_nonempty_trace (st : GlobalState) (env : Env)
    (overwrite : Bool) (format location output : String)
    (hv : inventoryValid env overwrite format output = true)
    (he : (env.collect_inventory (invLoc env location)).2.isEmpty = false) :
    inventory st env overwrite format location output
      = [Event.echo ("Running about-code-tool version " ++ version_str),
         Event.echo ("Collecting the inventory from location: " ++ location
           ++ " and writing output to: " ++ output),
         Event.collectCall (invLoc env location),
         Event.writeOut (if format == "json" then
             Written.json (env.collect_inventory (invLoc env location)).2 output
           else Written.csv (env.collect_inventory (invLoc env location)).2 output),
         Event.logErrors ⟨(env.collect_inventory (invLoc env location)).1,
             env.dirname output, st.verbosity_num⟩] := by
  simp only [inventoryValid, Bool.and_eq_true] at hv
  obtain ⟨⟨⟨ha, hb⟩, hc⟩, hd⟩ := hv
  have hc' : format ∈ formats := by simpa using hc
  cases hx : env.outputExists <;> cases hw : overwrite <;>
    cases hj : format == "json" <;> cases hcsv : pyEndsWith output ".csv" <;>
    by_cases hz : pyEndsWith (pyLower location) ".zip" = true <;>
    simp_all [inventory, invLoc]

/-- C4: `inventory` rejects an unsupported format, and rejects a non-`.csv`
output name when the format is not `json`: in both situations the run makes
no `collect_inventory` call, writes nothing, makes no `log_errors` call, and
echoes an error line. -/
theorem C4_inventory_format_checks (st : GlobalState) (env : Env)
    (overwrite : Bool) (format location output : String) :
    (formats.contains format = false →
      collectCallsOf (inventory st env overwrite format location output) = [] ∧
      writesOf (inventory st env overwrite format location output) = [] ∧
      logCallsOf (inventory st env overwrite format location output) = [] ∧
      hasErrorEcho (inventory st env overwrite format location output)) ∧
    ((format == "json") = false → pyEndsWith output ".csv" = false →
      collectCallsOf (inventory st env overwrite format location output) = [] ∧
      writesOf (inventory st env overwrite format location output) = [] ∧
      logCallsOf (inventory st env overwrite format location output) = [] ∧
      hasErrorEcho (inventory st env overwrite format location output)) := by
  constructor
  · intro hf
    have hf' : format ∉ formats := by simpa using hf
    exact inventory_invalid_aborts st env overwrite format location output
      (by simp [inventoryValid, hf'])
  · intro hj hcsv
    exact inventory_invalid_aborts st env overwrite format location output
      (by simp [inventoryValid, hj, hcsv])

/-- Witness for C4: an unsupported format `xml`, and format `csv` with a
`.txt` output name. -/
theorem C4_inventory_format_checks_witness :
    (formats.contains "xml" = false ∧
      (collectCallsOf (inventory startState demoEnv false "xml" "/in" "/o.csv") = [] ∧
        writesOf (inventory startState demoEnv false "xml" "/in" "/o.csv") = [] ∧
        logCallsOf (inventory startState demoEnv false "xml" "/in" "/o.csv") = [] ∧
        hasErrorEcho (inventory startState demoEnv false "xml" "/in" "/o.csv"))) ∧
    ((("csv" : String) == "json") = false ∧ pyEndsWith "/o.txt" ".csv" = false ∧
      (collectCallsOf (inventory startState demoEnv false "csv" "/in" "/o.txt") = [] ∧
        writesOf (inventory startState demoEnv false "csv" "/in" "/o.txt") = [] ∧
        logCallsOf (inventory startState demoEnv false "csv" "/in" "/o.txt") = [] ∧
        hasErrorEcho (inventory startState demoEnv false "csv" "/in" "/o.txt"))) :=
  ⟨⟨by decide,
      (C4_inventory_format_checks startState demoEnv false "xml" "/in" "/o.csv").1
        (by decide)⟩,
    ⟨by decide, by decide,
      (C4_inventory_format_checks startState demoEnv false "csv" "/in" "/o.txt").2
        (by decide) (by decide)⟩⟩

/-- C5: when the `gen` location ends with neither `.csv` nor `.json`, the
run echoes the error message and stops: no `generate` call, no `copy_files`
call, no write, no `log_errors` call. -/
theorem C5_gen_rejects_extension (env : Env) (mapping : Bool)
    (ltl : Option String) (el : Option (String × String))
    (location output : String)
    (h1 : pyEndsWith location ".csv" = false)
    (h2 : pyEndsWith location ".json" = false) :
    generateCallsOf (gen env mapping ltl el location output) = [] ∧
    copyCallsOf (gen env mapping ltl el location output) = [] ∧
    writesOf (gen env mapping ltl el location output) = [] ∧
    logCallsOf (gen env mapping ltl el location output) = [] ∧
    "ERROR: Input file. Only .csv and .json files are supported."
      ∈ echoedOf (gen env mapping ltl el location output) := by
  refine ⟨?_, ?_, ?_, ?_, ?_⟩ <;>
    simp [gen, h1, h2, generateCallsOf, copyCallsOf, writesOf, logCallsOf,
      echoedOf]

/-- Witness for C5 at a `.txt` location. -/
theorem C5_gen_rejects_extension_witness :
    pyEndsWith "/in.txt" ".csv" = false ∧ pyEndsWith "/in.txt" ".json" = false ∧
    (generateCallsOf (gen demoEnv false none none "/in.txt" "/outdir") = [] ∧
      copyCallsOf (gen demoEnv false none none "/in.txt" "/outdir") = [] ∧
      writesOf (gen demoEnv false none none "/in.txt" "/outdir") = [] ∧
      logCallsOf (gen demoEnv false none none "/in.txt" "/outdir") = [] ∧
      "ERROR: Input file. Only .csv and .json files are supported."
        ∈ echoedOf (gen demoEnv false none none "/in.txt" "/outdir")) :=
  ⟨by decide, by decide,
    C5_gen_rejects_extension demoEnv false none none "/in.txt" "/outdir"
      (by decide) (by decide)⟩

/-- C6: when the location ends with `.zip` case-insensitively, any
`collect_inventory` call made by `inventory` receives `extract_zip(location)`
(not the raw location), and `attrib`'s `collect_inventory` call receives
exactly `extract_zip(location)`. -/
theorem C6_zip_locations_extracted (st : GlobalState) (env : Env)
    (overwrite : Bool) (format location output : String)
    (template : Option String) (mapping : Bool) (invloc : Option String)
    (hz : pyEndsWith (pyLower location) ".zip" = true) :
    (∀ arg ∈ collectCallsOf (inventory st env overwrite format location output),
      arg = env.extract_zip location) ∧
    collectCallsOf (attrib env location output template mapping invloc)
      = [env.extract_zip location] := by
  constructor
  · intro arg harg
    cases hval : inventoryValid env overwrite format output
    · have h := inventory_invalid_aborts st env overwrite format location
        output hval
      rw [h.1] at harg
      simp at harg
    · have h := inventory_valid_delegates st env overwrite format location
        output hval
      rw [h.1] at harg
      simp at harg
      rw [harg, invLoc, if_pos hz]
  · simp [attrib, hz, collectCallsOf]

/-- Witness for C6 at an upper-case `.ZIP` location. -/
theorem C6_zip_locations_extracted_witness :
    pyEndsWith (pyLower "/in.ZIP") ".zip" = true ∧
    ((∀ arg ∈ collectCallsOf (inventory startState demoEnv false "csv"
        "/in.ZIP" "/o.csv"), arg = demoEnv.extract_zip "/in.ZIP") ∧
      collectCallsOf (attrib demoEnv "/in.ZIP" "/o.html" none false none)
        = [demoEnv.extract_zip "/in.ZIP"]) :=
  ⟨by decide,
    C6_zip_locations_extracted startState demoEnv false "csv" "/in.ZIP"
      "/o.csv" none false none (by decide)⟩

/-- C7: each subcommand either passes all its validation checks and
delegates to its collaborator, or fails some check, echoes an error line and
stops before the collaborator with no write and no `log_errors` call
(`attrib` has no validation checks and always delegates).  Totality of the
embedding reflects that no validation failure raises an exception. -/
theorem C7_validate_or_delegate (st : GlobalState) (env : Env)
    (overwrite : Bool) (formatV outV formatX outX : String)
    (locI locX locGV locGX outG locA outA : String)
    (mapping : Bool) (ltl : Option String) (el : Option (String × String))
    (template : Option String) (invloc : Option String) :
    (inventoryValid env overwrite formatV outV = true →
      collectCallsOf (inventory st env overwrite formatV locI outV)
        = [invLoc env locI] ∧
      logCallsOf (inventory st env overwrite formatV locI outV)
        = [⟨invFinalErrors env locI, env.dirname outV, st.verbosity_num⟩]) ∧
    (inventoryValid env overwrite formatX outX = false →
      collectCallsOf (inventory st env overwrite formatX locX outX) = [] ∧
      writesOf (inventory st env overwrite formatX locX outX) = [] ∧
      logCallsOf (inventory st env overwrite formatX locX outX) = [] ∧
      hasErrorEcho (inventory st env overwrite formatX locX outX)) ∧
    (genValid locGV = true →
      generateCallsOf (gen env mapping ltl el locGV outG)
        = [(mapping, el, locGV, outG)] ∧
      logCallsOf (gen env mapping ltl el locGV outG)
        = [⟨genFinalErrors env mapping ltl el locGV outG, outG, NOTSET⟩]) ∧
    (genValid locGX = false →
      generateCallsOf (gen env mapping ltl el locGX outG) = [] ∧
      copyCallsOf (gen env mapping ltl el locGX outG) = [] ∧
      logCallsOf (gen env mapping ltl el locGX outG) = [] ∧
      hasErrorEcho (gen env mapping ltl el locGX outG)) ∧
    genSaveCallsOf (attrib env locA outA template mapping invloc)
      = [(outA, mapping, template, invloc)] := by
  refine ⟨?_, ?_, ?_, ?_, ?_⟩
  · intro hv
    exact inventory_valid_delegates st env overwrite formatV locI outV hv
  · intro hv
    exact inventory_invalid_aborts st env overwrite formatX locX outX hv
  · intro hv
    have h := gen_valid_delegates env mapping ltl el locGV outG hv
    exact ⟨h.1, h.2.1⟩
  · intro hv
    exact gen_invalid_aborts env mapping ltl el locGX outG hv
  · simp [attrib, genSaveCallsOf]

/-- Witness for C7: a valid and an invalid instance of each validated
subcommand, at concrete inputs. -/
theorem C7_validate_or_delegate_witness :
    inventoryValid demoEnv false "csv" "/o.csv" = true ∧
    inventoryValid demoEnv false "xml" "/o.csv" = false ∧
    genValid "/in.csv" = true ∧ genValid "/in.txt" = false ∧
    ((collectCallsOf (inventory startState demoEnv false "csv" "/in" "/o.csv")
        = [invLoc demoEnv "/in"] ∧
      logCallsOf (inventory startState demoEnv false "csv" "/in" "/o.csv")
        = [⟨invFinalErrors demoEnv "/in", demoEnv.dirname "/o.csv",
            startState.verbosity_num⟩]) ∧
    (collectCallsOf (inventory startState demoEnv false "xml" "/in" "/o.csv") = [] ∧
      writesOf (inventory startState demoEnv false "xml" "/in" "/o.csv") = [] ∧
      logCallsOf (inventory startState demoEnv false "xml" "/in" "/o.csv") = [] ∧
      hasErrorEcho (inventory startState demoEnv false "xml" "/in" "/o.csv")) ∧
    (generateCallsOf (gen demoEnv false none none "/in.csv" "/outdir")
        = [(false, none, "/in.csv", "/outdir")] ∧
      logCallsOf (gen demoEnv false none none "/in.csv" "/outdir")
        = [⟨genFinalErrors demoEnv false none none "/in.csv" "/outdir",
            "/outdir", NOTSET⟩]) ∧
    (generateCallsOf (gen demoEnv false none none "/in.txt" "/outdir") = [] ∧
      copyCallsOf (gen demoEnv false none none "/in.txt" "/outdir") = [] ∧
      logCallsOf (gen demoEnv false none none "/in.txt" "/outdir") = [] ∧
      hasErrorEcho (gen demoEnv false none none "/in.txt" "/outdir")) ∧
    genSaveCallsOf (attrib demoEnv "/in" "/o.html" none false none)
      = [("/o.html", false, none, none)]) := by
  have h := C7_validate_or_delegate startState demoEnv false "csv" "/o.csv"
    "xml" "/o.csv" "/in" "/in" "/in.csv" "/in.txt" "/outdir" "/in" "/o.html"
    false none none none none
  exact ⟨by decide, by decide, by decide, by decide,
    h.1 (by decide), h.2.1 (by decide), h.2.2.1 (by decide),
    h.2.2.2.1 (by decide), h.2.2.2.2⟩

/-- C9: whenever a `gen` run makes its final `log_errors` call (equivalently,
reaches the summary line), the echoed summary reports exactly the length of
the `abouts` list returned by `generate` and the number of final errors with
severity strictly greater than 20; on the five-level scale that count is
exactly the count of WARNING, ERROR and CRITICAL errors. -/
theorem C9_gen_summary_counts (env : Env) (mapping : Bool)
    (ltl : Option String) (el : Option (String × String))
    (location output : String) (la : LogArgs)
    (h : la ∈ logCallsOf (gen env mapping ltl el location output)) :
    Event.echo (summaryLine (env.generate mapping el location output).2.length
        ((la.errors.filter fun e => decide (20 < e.severity)).length))
      ∈ gen env mapping ltl el location output ∧
    ((∀ e ∈ la.errors, e.severity ∈ fiveLevels) →
      (la.errors.filter fun e => decide (20 < e.severity)).length
        = (la.errors.filter fun e =>
            decide (e.severity ∈ highLevels)).length) := by
  cases hval : genValid location
  · have habort := gen_invalid_aborts env mapping ltl el location output hval
    rw [habort.2.2.1] at h
    simp at h
  · have hdel := gen_valid_delegates env mapping ltl el location output hval
    rw [hdel.2.1] at h
    simp at h
    constructor
    · rw [h]
      exact hdel.2.2
    · intro hall
      rw [filter_gt20_eq_highLevels la.errors hall]

/-- Witness for C9 at a concrete `gen` run with an INFO and an ERROR
error. -/
theorem C9_gen_summary_counts_witness :
    ((⟨[⟨20, "info"⟩, ⟨40, "bad"⟩], "/outdir", 0⟩ : LogArgs)
        ∈ logCallsOf (gen demoEnv false none none "/in.csv" "/outdir")) ∧
    (Event.echo (summaryLine
        (demoEnv.generate false none "/in.csv" "/outdir").2.length
        ((([⟨20, "info"⟩, ⟨40, "bad"⟩] : List Error).filter
          fun e => decide (20 < e.severity)).length))
      ∈ gen demoEnv false none none "/in.csv" "/outdir") ∧
    (∀ e ∈ ([⟨20, "info"⟩, ⟨40, "bad"⟩] : List Error),
      e.severity ∈ fiveLevels) ∧
    ((([⟨20, "info"⟩, ⟨40, "bad"⟩] : List Error).filter
        fun e => decide (20 < e.severity)).length
      = (([⟨20, "info"⟩, ⟨40, "bad"⟩] : List Error).filter
        fun e => decide (e.severity ∈ highLevels)).length) := by
  have h := C9_gen_summary_counts demoEnv false none none "/in.csv" "/outdir"
    ⟨[⟨20, "info"⟩, ⟨40, "bad"⟩], "/outdir", 0⟩ (by decide)
  exact ⟨by decide, h.1, by decide, h.2 (by decide)⟩

/-- C10: in a valid `inventory` run, an empty `abouts` list makes the run
write nothing and log only the single halt error in place of the
collaborator's errors; a non-empty `abouts` list makes the run write the
output in the selected format and only afterwards hand the collaborator's
errors to `log_errors`. -/
theorem C10_inventory_empty_replacement (stA stB : GlobalState)
    (envA envB : Env) (overwriteA overwriteB : Bool)
    (formatA locationA outputA formatB locationB outputB : String)
    (hvA : inventoryValid envA overwriteA formatA outputA = true)
    (hvB : inventoryValid envB overwriteB formatB outputB = true) :
    ((envA.collect_inventory (invLoc envA locationA)).2.isEmpty = true →
      writesOf (inventory stA envA overwriteA formatA locationA outputA) = [] ∧
      logCallsOf (inventory stA envA overwriteA formatA locationA outputA)
        = [⟨[⟨ERROR, "No ABOUT files is found. Generation halted."⟩],
            envA.dirname outputA, stA.verbosity_num⟩]) ∧
    ((envB.collect_inventory (invLoc envB locationB)).2.isEmpty = false →
      ∃ pre post,
        inventory stB envB overwriteB formatB locationB outputB
          = pre ++ Event.writeOut (if formatB == "json" then
                Written.json (envB.collect_inventory (invLoc envB locationB)).2
                  outputB
              else
                Written.csv (envB.collect_inventory (invLoc envB locationB)).2
                  outputB)
            :: post ∧
        Event.logErrors ⟨(envB.collect_inventory (invLoc envB locationB)).1,
            envB.dirname outputB, stB.verbosity_num⟩ ∈ post) := by
  constructor
  · intro he
    rw [inventory_empty_trace stA envA overwriteA formatA locationA outputA
      hvA he]
    constructor <;> simp [writesOf, logCallsOf]
  · intro he
    refine ⟨[Event.echo ("Running about-code-tool version " ++ version_str),
        Event.echo ("Collecting the inventory from location: " ++ locationB
          ++ " and writing output to: " ++ outputB),
        Event.collectCall (invLoc envB locationB)],
      [Event.logErrors ⟨(envB.collect_inventory (invLoc envB locationB)).1,
          envB.dirname outputB, stB.verbosity_num⟩], ?_, ?_⟩
    · rw [inventory_nonempty_trace stB envB overwriteB formatB locationB
        outputB hvB he]
      rfl
    · simp

/-- Witness for C10: an environment finding no ABOUT files and one finding
some. -/
theorem C10_inventory_empty_replacement_witness :
    inventoryValid demoEnvEmpty false "csv" "/o.csv" = true ∧
    inventoryValid demoEnv false "csv" "/o.csv" = true ∧
    (demoEnvEmpty.collect_inventory (invLoc demoEnvEmpty "/in")).2.isEmpty = true ∧
    (demoEnv.collect_inventory (invLoc demoEnv "/in")).2.isEmpty = false ∧
    (writesOf (inventory startState demoEnvEmpty false "csv" "/in" "/o.csv") = [] ∧
      logCallsOf (inventory startState demoEnvEmpty false "csv" "/in" "/o.csv")
        = [⟨[⟨ERROR, "No ABOUT files is found. Generation halted."⟩],
            demoEnvEmpty.dirname "/o.csv", startState.verbosity_num⟩]) ∧
    (∃ pre post,
      inventory startState demoEnv false "csv" "/in" "/o.csv"
        = pre ++ Event.writeOut (if ("csv" : String) == "json" then
              Written.json (demoEnv.collect_inventory (invLoc demoEnv "/in")).2
                "/o.csv"
            else
              Written.csv (demoEnv.collect_inventory (invLoc demoEnv "/in")).2
                "/o.csv")
          :: post ∧
      Event.logErrors ⟨(demoEnv.collect_inventory (invLoc demoEnv "/in")).1,
          demoEnv.dirname "/o.csv", startState.verbosity_num⟩ ∈ post) := by
  have h := C10_inventory_empty_replacement startState startState demoEnvEmpty
    demoEnv false false "csv" "/in" "/o.csv" "csv" "/in" "/o.csv"
    (by decide) (by decide)
  exact ⟨by decide, by decide, by decide, by decide,
    h.1 (by decide), h.2 (by decide)⟩

end AboutTool
